import Mathlib

/-!
Verification development for the restaurant floor-plan renderer
(`restaurant_floorplan_modern.cpp`).

The renderer's geometry pipeline is shallowly embedded here:

* float arithmetic is modelled by exact rational arithmetic (`ℚ`);
* `glm::vec2/vec4/mat4` become `Vec2`, `Vec4`, `Mat4` (column-major, as glm);
* `glm::ortho` is transcribed from glm's right-handed, [-1,1]-depth variant,
  the one the code's default glm configuration selects;
* the `DrawBuffer` keeps, besides the CPU-side vertex vector, the state of
  its GPU-side allocation: `capacity` is the byte size fixed by
  `glBufferData(GL_ARRAY_BUFFER, 1<<20, nullptr, ...)` in `init`, and
  `gpuData` is the content of that data store.  Per the OpenGL
  specification, a `glBufferSubData` whose range exceeds the data store
  raises `GL_INVALID_VALUE` and leaves the store unmodified; the upload
  model reproduces exactly that, since the code performs no check of its
  own;
* `cosf`, `sinf` and the float constants `M_PI`, `M_PI_2` are taken as
  parameters (`cosF`, `sinF`, `twoPi`, `halfPi`): the embedding proves the
  geometric structure of the emitted vertices for every model of the trig
  functions, which is exactly what holds of the C code for the concrete
  libm implementations;
* the ImGui overlay draw calls (`AddLine`, `AddRectFilled`, `AddText`,
  `AddCircleFilled`) become constructors of `DrawCmd`; the colour,
  thickness and tessellation arguments of those calls are style-only and
  are not carried, text measurement (`ImGui::CalcTextSize`) is an abstract
  parameter `ts : String → Vec2`;
* each overlay function's `worldToScreen` lambda is transcribed separately
  (`wtsDoorSwings`, `wtsDimensions`, `wtsFloorDrains`, `wtsScaleBar`,
  `wtsLabels`), keeping the per-function differences of the source.
-/

namespace FloorPlanModel

/-- glm::vec2 over exact rationals. -/
structure Vec2 where
  x : ℚ
  y : ℚ
  deriving DecidableEq

/-- glm::vec4 over exact rationals. -/
structure Vec4 where
  x : ℚ
  y : ℚ
  z : ℚ
  w : ℚ
  deriving DecidableEq

/-- An RGBA colour, the glm::vec4 colour channel of a vertex. -/
structure Color where
  r : ℚ
  g : ℚ
  b : ℚ
  a : ℚ
  deriving DecidableEq

/-- glm::mat4, column-major: `cK` is column K. -/
structure Mat4 where
  c0 : Vec4
  c1 : Vec4
  c2 : Vec4
  c3 : Vec4
  deriving DecidableEq

/-- glm matrix * vector product (`proj * glm::vec4(...)`). -/
def mulVec4 (m : Mat4) (v : Vec4) : Vec4 :=
  ⟨m.c0.x * v.x + m.c1.x * v.y + m.c2.x * v.z + m.c3.x * v.w,
   m.c0.y * v.x + m.c1.y * v.y + m.c2.y * v.z + m.c3.y * v.w,
   m.c0.z * v.x + m.c1.z * v.y + m.c2.z * v.z + m.c3.z * v.w,
   m.c0.w * v.x + m.c1.w * v.y + m.c2.w * v.z + m.c3.w * v.w⟩

/-- glm::ortho(left, right, bottom, top, zNear, zFar), right-handed,
[-1,1] clip depth (glm's default configuration). -/
def ortho (left right bottom top zNear zFar : ℚ) : Mat4 :=
  { c0 := ⟨2 / (right - left), 0, 0, 0⟩
    c1 := ⟨0, 2 / (top - bottom), 0, 0⟩
    c2 := ⟨0, 0, -2 / (zFar - zNear), 0⟩
    c3 := ⟨-(right + left) / (right - left),
           -(top + bottom) / (top - bottom),
           -(zFar + zNear) / (zFar - zNear), 1⟩ }

/-- One vertex of the interleaved stream x,y,r,g,b,a,u,v
(struct Vertex { glm::vec2 pos; glm::vec4 color; glm::vec2 uv; }). -/
structure Vertex where
  pos : Vec2
  color : Color
  uv : Vec2
  deriving DecidableEq

/-- GL_TRIANGLES. -/
def glTriangles : ℕ := 4
/-- GL_LINES. -/
def glLines : ℕ := 1
/-- Bytes of one vertex in the GPU stream: 8 floats of 4 bytes. -/
def bytesPerVertex : ℕ := 32

/-- struct DrawBuffer.  `data` is the CPU-side `std::vector<float>`, grouped
per vertex; `capacity` is the byte size of the GPU-side allocation made in
`init`; `gpuData` is the content of that GPU data store. -/
structure DrawBuffer where
  data : List Vertex
  vertexCount : ℕ
  capacity : ℕ
  gpuData : List Vertex
  deriving DecidableEq

/-- DrawBuffer::init: `glBufferData(GL_ARRAY_BUFFER, 1<<20, nullptr,
GL_DYNAMIC_DRAW)` allocates a fixed `1<<20`-byte store with unspecified
content (modelled empty). -/
def DrawBuffer.init : DrawBuffer :=
  { data := [], vertexCount := 0, capacity := 2 ^ 20, gpuData := [] }

/-- DrawBuffer::begin: clear the CPU-side list only. -/
def DrawBuffer.clearFrame (buf : DrawBuffer) : DrawBuffer :=
  { buf with data := [], vertexCount := 0 }

/-- DrawBuffer::pushVertex(x, y, r, g, b, a, u = 0, v = 0). -/
def DrawBuffer.pushVertex (buf : DrawBuffer) (x y r g b a u v : ℚ) : DrawBuffer :=
  { buf with data := buf.data ++ [⟨⟨x, y⟩, ⟨r, g, b, a⟩, ⟨u, v⟩⟩],
             vertexCount := buf.vertexCount + 1 }

/-- DrawBuffer::uploadAndDrawTriangles(mode).  Returns the buffer after the
GL calls together with the drawn vertex stream (`none` when the early
`data.empty()` return fires and no draw call is issued).

The source does `glBufferSubData(GL_ARRAY_BUFFER, 0, data.size()*sizeof(float),
data.data())` with no capacity check: when the byte size fits the fixed
allocation the store receives the data, otherwise (per the GL spec)
`GL_INVALID_VALUE` is raised and the store stays unmodified — the code
reads no error and continues.  `glDrawArrays(mode, 0, vertexCount)` then
consumes `vertexCount` vertices from whatever the store holds. -/
def DrawBuffer.uploadAndDrawTriangles (buf : DrawBuffer) (mode : ℕ) :
    DrawBuffer × Option (ℕ × List Vertex) :=
  if buf.data = [] then (buf, none)
  else
    let gpu := if buf.data.length * bytesPerVertex ≤ buf.capacity
               then buf.data else buf.gpuData
    ({ buf with gpuData := gpu }, some (mode, gpu.take buf.vertexCount))

/-- addRectTriangles(buf, x, y, w, h, color). -/
def addRectTriangles (buf : DrawBuffer) (x y w h : ℚ) (color : Color) : DrawBuffer :=
  let b1 := buf.pushVertex x y color.r color.g color.b color.a 0 0
  let b2 := b1.pushVertex (x + w) y color.r color.g color.b color.a 0 0
  let b3 := b2.pushVertex (x + w) (y + h) color.r color.g color.b color.a 0 0
  let b4 := b3.pushVertex x y color.r color.g color.b color.a 0 0
  let b5 := b4.pushVertex (x + w) (y + h) color.r color.g color.b color.a 0 0
  b5.pushVertex x (y + h) color.r color.g color.b color.a 0 0

/-- addRectLines(buf, x, y, w, h, color). -/
def addRectLines (buf : DrawBuffer) (x y w h : ℚ) (color : Color) : DrawBuffer :=
  let b1 := buf.pushVertex x y color.r color.g color.b color.a 0 0
  let b2 := b1.pushVertex (x + w) y color.r color.g color.b color.a 0 0
  let b3 := b2.pushVertex (x + w) y color.r color.g color.b color.a 0 0
  let b4 := b3.pushVertex (x + w) (y + h) color.r color.g color.b color.a 0 0
  let b5 := b4.pushVertex (x + w) (y + h) color.r color.g color.b color.a 0 0
  let b6 := b5.pushVertex x (y + h) color.r color.g color.b color.a 0 0
  let b7 := b6.pushVertex x (y + h) color.r color.g color.b color.a 0 0
  b7.pushVertex x y color.r color.g color.b color.a 0 0

/-- addCircleTriangles(buf, cx, cy, r, segments, color); `cosF`, `sinF`
model `cosf`, `sinf` and `twoPi` models the float value `2.0f * M_PI`. -/
def addCircleTriangles (cosF sinF : ℚ → ℚ) (twoPi : ℚ) (buf : DrawBuffer)
    (cx cy r : ℚ) (segments : ℕ) (color : Color) : DrawBuffer :=
  (List.range segments).foldl (fun (b : DrawBuffer) (i : ℕ) =>
    let a1 : ℚ := (i : ℚ) / (segments : ℚ) * twoPi
    let a2 : ℚ := ((i : ℚ) + 1) / (segments : ℚ) * twoPi
    let b1 := b.pushVertex cx cy color.r color.g color.b color.a 0 0
    let b2 := b1.pushVertex (cx + cosF a1 * r) (cy + sinF a1 * r)
                color.r color.g color.b color.a 0 0
    b2.pushVertex (cx + cosF a2 * r) (cy + sinF a2 * r)
      color.r color.g color.b color.a 0 0) buf

/-- addRectTextured(buf, x, y, w, h, color). -/
def addRectTextured (buf : DrawBuffer) (x y w h : ℚ) (color : Color) : DrawBuffer :=
  let b1 := buf.pushVertex x y color.r color.g color.b color.a 0 0
  let b2 := b1.pushVertex (x + w) y color.r color.g color.b color.a 1 0
  let b3 := b2.pushVertex (x + w) (y + h) color.r color.g color.b color.a 1 1
  let b4 := b3.pushVertex x y color.r color.g color.b color.a 0 0
  let b5 := b4.pushVertex (x + w) (y + h) color.r color.g color.b color.a 1 1
  b5.pushVertex x (y + h) color.r color.g color.b color.a 0 1

/-- struct RectItem. -/
structure RectItem where
  x : ℚ
  y : ℚ
  w : ℚ
  h : ℚ
  color : Color
  label : String
  type : String
  texture : ℕ
  deriving DecidableEq

/-- struct CircleItem. -/
structure CircleItem where
  x : ℚ
  y : ℚ
  r : ℚ
  color : Color
  label : String
  texture : ℕ
  deriving DecidableEq

/-- struct DoorItem. -/
structure DoorItem where
  x : ℚ
  y : ℚ
  w : ℚ
  h : ℚ
  hinge : String
  label : String
  texture : ℕ
  deriving DecidableEq

/-- struct FloorPlan: display toggles, the two view-scale factors, the
shape collections, the two draw buffers, the projection matrix and the
canvas size. -/
structure FloorPlan where
  showGrid : Bool
  showLabels : Bool
  showDoorSwings : Bool
  showDimensions : Bool
  showDrains : Bool
  showScaleBar : Bool
  scaleX : ℚ
  scaleY : ℚ
  showWindows : Bool
  showDoors : Bool
  showFrontElevation : Bool
  showSideElevation : Bool
  walls : List RectItem
  kitchen : List RectItem
  bar : List RectItem
  windows : List RectItem
  restrooms : List RectItem
  fire : List RectItem
  tablesRect : List RectItem
  tablesCircle : List CircleItem
  doors : List DoorItem
  floor : List RectItem
  drains : List CircleItem
  triBuf : DrawBuffer
  lineBuf : DrawBuffer
  proj : Mat4
  canvasW : ℤ
  canvasH : ℤ
  deriving DecidableEq

/-- FloorPlan::updateProjection(w, h).  (`glViewport` is a pure GL side
effect and has no model state.) -/
def updateProjection (w h : ℤ) (fp : FloorPlan) : FloorPlan :=
  let sx : ℚ := (w : ℚ) / 1200
  let sy : ℚ := (h : ℚ) / 800
  let s : ℚ := if sx < sy then sx else sy
  let viewW : ℚ := 1200 * s
  let viewH : ℚ := 800 * s
  { fp with canvasW := w, canvasH := h, scaleX := s, scaleY := s,
            proj := ortho 0 viewW viewH 0 (-1) 1 }

/-- One ImGui foreground-draw-list call issued by the overlay pass.  The
geometric arguments are carried; colour, thickness and ImGui tessellation
arguments are style-only and omitted. -/
inductive DrawCmd where
  | addLine (p q : Vec2)
  | addRectFilled (p q : Vec2)
  | addText (pos : Vec2) (text : String)
  | addCircleFilled (center : Vec2) (radius : ℚ)
  deriving DecidableEq

/-- The `worldToScreen` lambda of FloorPlan::drawDoorSwings: `none` models
`return false` (item rejected), `some` carries the pixel position. -/
def wtsDoorSwings (fp : FloorPlan) (wx wy : ℚ) : Option Vec2 :=
  let sx := fp.scaleX
  let sy := fp.scaleY
  let clip := mulVec4 fp.proj ⟨wx * sx, wy * sy, 0, 1⟩
  if clip.w = 0 then none
  else
    let nx := clip.x / clip.w
    let ny := clip.y / clip.w
    if nx < -1 ∨ nx > 1 ∨ ny < -1 ∨ ny > 1 then none
    else some ⟨(nx * (1 / 2) + 1 / 2) * (fp.canvasW : ℚ),
               (1 - (ny * (1 / 2) + 1 / 2)) * (fp.canvasH : ℚ)⟩

/-- The `worldToScreen` lambda of FloorPlan::drawDimensions. -/
def wtsDimensions (fp : FloorPlan) (wx wy : ℚ) : Option Vec2 :=
  let sx := fp.scaleX
  let sy := fp.scaleY
  let clip := mulVec4 fp.proj ⟨wx * sx, wy * sy, 0, 1⟩
  if clip.w = 0 then none
  else
    let nx := clip.x / clip.w
    let ny := clip.y / clip.w
    if nx < -1 ∨ nx > 1 ∨ ny < -1 ∨ ny > 1 then none
    else some ⟨(nx * (1 / 2) + 1 / 2) * (fp.canvasW : ℚ),
               (1 - (ny * (1 / 2) + 1 / 2)) * (fp.canvasH : ℚ)⟩

/-- The `worldToScreen` lambda of FloorPlan::drawFloorDrains.  The source
declares only `float sx = scaleX;` there and multiplies BOTH world
coordinates by `sx` (`wy * sx`, not `wy * sy`). -/
def wtsFloorDrains (fp : FloorPlan) (wx wy : ℚ) : Option Vec2 :=
  let sx := fp.scaleX
  let clip := mulVec4 fp.proj ⟨wx * sx, wy * sx, 0, 1⟩
  if clip.w = 0 then none
  else
    let nx := clip.x / clip.w
    let ny := clip.y / clip.w
    if nx < -1 ∨ nx > 1 ∨ ny < -1 ∨ ny > 1 then none
    else some ⟨(nx * (1 / 2) + 1 / 2) * (fp.canvasW : ℚ),
               (1 - (ny * (1 / 2) + 1 / 2)) * (fp.canvasH : ℚ)⟩

/-- The `worldToScreen` lambda of FloorPlan::drawScaleBar. -/
def wtsScaleBar (fp : FloorPlan) (wx wy : ℚ) : Option Vec2 :=
  let sx := fp.scaleX
  let sy := fp.scaleY
  let clip := mulVec4 fp.proj ⟨wx * sx, wy * sy, 0, 1⟩
  if clip.w = 0 then none
  else
    let nx := clip.x / clip.w
    let ny := clip.y / clip.w
    if nx < -1 ∨ nx > 1 ∨ ny < -1 ∨ ny > 1 then none
    else some ⟨(nx * (1 / 2) + 1 / 2) * (fp.canvasW : ℚ),
               (1 - (ny * (1 / 2) + 1 / 2)) * (fp.canvasH : ℚ)⟩

/-- The `worldToScreen` lambda of FloorPlan::drawLabels. -/
def wtsLabels (fp : FloorPlan) (wx wy : ℚ) : Option Vec2 :=
  let sx := fp.scaleX
  let sy := fp.scaleY
  let clip := mulVec4 fp.proj ⟨wx * sx, wy * sy, 0, 1⟩
  if clip.w = 0 then none
  else
    let nx := clip.x / clip.w
    let ny := clip.y / clip.w
    if nx < -1 ∨ nx > 1 ∨ ny < -1 ∨ ny > 1 then none
    else some ⟨(nx * (1 / 2) + 1 / 2) * (fp.canvasW : ℚ),
               (1 - (ny * (1 / 2) + 1 / 2)) * (fp.canvasH : ℚ)⟩

/-- FloorPlan::drawDoorSwings, body of the per-door loop: the draw calls
issued for one door.  `cosF`/`sinF` model `cosf`/`sinf`, `halfPi` models
the float constant `M_PI_2` (`angleEnd`); `angleStart` is 0 and
`segments` is 20 in the source. -/
def doorSwingCmds (cosF sinF : ℚ → ℚ) (halfPi : ℚ) (fp : FloorPlan)
    (d : DoorItem) : List DrawCmd :=
  match wtsDoorSwings fp d.x d.y with
  | none => []
  | some center =>
    let radius := (d.w + d.h) * (1 / 2) * fp.scaleX
    let angleStart : ℚ := 0
    let angleEnd : ℚ := halfPi
    (List.range 20).flatMap (fun i =>
      let a1 := angleStart + (angleEnd - angleStart) * (i : ℚ) / 20
      let a2 := angleStart + (angleEnd - angleStart) * ((i : ℚ) + 1) / 20
      let p1 : Vec2 := ⟨center.x + cosF a1 * radius, center.y + sinF a1 * radius⟩
      let p2 : Vec2 := ⟨center.x + cosF a2 * radius, center.y + sinF a2 * radius⟩
      [DrawCmd.addLine center p1, DrawCmd.addLine p1 p2])

/-- FloorPlan::drawDoorSwings: gated by `showDoorSwings` at its top. -/
def drawDoorSwings (cosF sinF : ℚ → ℚ) (halfPi : ℚ) (fp : FloorPlan) :
    List DrawCmd :=
  if fp.showDoorSwings = false then []
  else fp.doors.flatMap (doorSwingCmds cosF sinF halfPi fp)

/-- FloorPlan::drawFloorDrains: gated by `showDrains` at its top;
`ts` models `ImGui::CalcTextSize`. -/
def drawFloorDrains (ts : String → Vec2) (fp : FloorPlan) : List DrawCmd :=
  if fp.showDrains = false then []
  else
    fp.drains.flatMap (fun d =>
      match wtsFloorDrains fp d.x d.y with
      | none => []
      | some screenPos =>
        DrawCmd.addCircleFilled screenPos (d.r * fp.scaleX) ::
        (if d.label = "" then []
         else
           let sz := ts d.label
           let tp : Vec2 := ⟨screenPos.x - sz.x * (1 / 2),
                             screenPos.y - d.r * fp.scaleX - sz.y - 2⟩
           [DrawCmd.addRectFilled ⟨tp.x - 2, tp.y - 1⟩ ⟨tp.x + sz.x + 2, tp.y + sz.y + 1⟩,
            DrawCmd.addText tp d.label]))

/-- FloorPlan::drawScaleBar.  NOTE: the source contains no
`if (!showScaleBar) return;` — unlike every other overlay function, this
one is NOT gated by its flag. -/
def drawScaleBar (fp : FloorPlan) : List DrawCmd :=
  let wx0 : ℚ := 60
  let wy0 : ℚ := 40
  let lengthM : ℚ := 100
  match wtsScaleBar fp wx0 wy0 with
  | none => []
  | some s =>
    match wtsScaleBar fp (wx0 + lengthM) wy0 with
    | none => []
    | some e =>
      [DrawCmd.addLine s e,
       DrawCmd.addText ⟨s.x, s.y - 20 * fp.scaleX⟩ "1 m"]

/-- FloorPlan::drawLabels, body of the `drawRectLabels` lambda for one
rect item: the draw calls issued for it. -/
def rectLabelCmds (ts : String → Vec2) (fp : FloorPlan) (r : RectItem) :
    List DrawCmd :=
  if r.label = "" then []
  else
    let cx := r.x + r.w * (1 / 2)
    let cy := r.y + r.h * (1 / 2)
    match wtsLabels fp cx cy with
    | none => []
    | some screenPos =>
      let sz := ts r.label
      let tp : Vec2 := ⟨screenPos.x - sz.x * (1 / 2), screenPos.y - sz.y * (1 / 2)⟩
      [DrawCmd.addRectFilled ⟨tp.x - 4, tp.y - 2⟩ ⟨tp.x + sz.x + 4, tp.y + sz.y + 2⟩,
       DrawCmd.addText tp r.label]

/-- FloorPlan::drawLabels, `drawRectLabels` instantiated at DoorItem (the
source lambda is generic over the item type). -/
def doorLabelCmds (ts : String → Vec2) (fp : FloorPlan) (d : DoorItem) :
    List DrawCmd :=
  if d.label = "" then []
  else
    let cx := d.x + d.w * (1 / 2)
    let cy := d.y + d.h * (1 / 2)
    match wtsLabels fp cx cy with
    | none => []
    | some screenPos =>
      let sz := ts d.label
      let tp : Vec2 := ⟨screenPos.x - sz.x * (1 / 2), screenPos.y - sz.y * (1 / 2)⟩
      [DrawCmd.addRectFilled ⟨tp.x - 4, tp.y - 2⟩ ⟨tp.x + sz.x + 4, tp.y + sz.y + 2⟩,
       DrawCmd.addText tp d.label]

/-- FloorPlan::drawLabels, body of the `drawCircleLabels` lambda for one
circle item. -/
def circleLabelCmds (ts : String → Vec2) (fp : FloorPlan) (c : CircleItem) :
    List DrawCmd :=
  if c.label = "" then []
  else
    match wtsLabels fp c.x c.y with
    | none => []
    | some screenPos =>
      let sz := ts c.label
      let tp : Vec2 := ⟨screenPos.x - sz.x * (1 / 2), screenPos.y - sz.y * (1 / 2)⟩
      [DrawCmd.addRectFilled ⟨tp.x - 4, tp.y - 2⟩ ⟨tp.x + sz.x + 4, tp.y + sz.y + 2⟩,
       DrawCmd.addText tp c.label]

/-- FloorPlan::drawLabels: gated by `showLabels` at its top, then the
collections in source order. -/
def drawLabels (ts : String → Vec2) (fp : FloorPlan) : List DrawCmd :=
  if fp.showLabels = false then []
  else
    fp.walls.flatMap (rectLabelCmds ts fp)
    ++ fp.kitchen.flatMap (rectLabelCmds ts fp)
    ++ fp.bar.flatMap (rectLabelCmds ts fp)
    ++ fp.windows.flatMap (rectLabelCmds ts fp)
    ++ fp.restrooms.flatMap (rectLabelCmds ts fp)
    ++ fp.fire.flatMap (rectLabelCmds ts fp)
    ++ fp.tablesRect.flatMap (rectLabelCmds ts fp)
    ++ fp.tablesCircle.flatMap (circleLabelCmds ts fp)
    ++ fp.doors.flatMap (doorLabelCmds ts fp)
    ++ fp.drains.flatMap (circleLabelCmds ts fp)

/-- The globals of the GLFW main: window size and the floor plan pointed
to by `gPlan`. -/
structure AppState where
  gWinW : ℤ
  gWinH : ℤ
  plan : FloorPlan
  deriving DecidableEq

/-- framebuffer_size_cb: only a strictly positive size updates the globals
and recomputes the projection; otherwise the event is ignored. -/
def framebuffer_size_cb (w h : ℤ) (st : AppState) : AppState :=
  if 0 < w ∧ 0 < h then
    { gWinW := w, gWinH := h, plan := updateProjection w h st.plan }
  else st

/-- One step of the main render loop, as the sequence of pass names it
executes. -/
inductive FrameAction where
  | pollEvents
  | imguiNewFrame
  | controlsWindow
  | frontElevationView
  | sideElevationView
  | clearFrame
  | renderScene
  | doorSwingsPass
  | floorDrainsPass
  | dimensionsPass
  | scaleBarPass
  | labelsPass
  | imguiRender
  | swapBuffers
  deriving DecidableEq

/-- The body of `while(!glfwWindowShouldClose(window))` in main: the source
branches only on the two elevation-view flags; in particular no branch
consults the window size, so every iteration renders the scene. -/
def loopIteration (st : AppState) : List FrameAction :=
  [FrameAction.pollEvents, FrameAction.imguiNewFrame, FrameAction.controlsWindow]
  ++ (if st.plan.showFrontElevation then [FrameAction.frontElevationView] else [])
  ++ (if st.plan.showSideElevation then [FrameAction.sideElevationView] else [])
  ++ [FrameAction.clearFrame, FrameAction.renderScene,
      FrameAction.doorSwingsPass, FrameAction.floorDrainsPass,
      FrameAction.dimensionsPass, FrameAction.scaleBarPass,
      FrameAction.labelsPass, FrameAction.imguiRender, FrameAction.swapBuffers]

/-- A concrete floor plan: the projection of a 1200×800 viewport, one door
(the "Main Entrance" of the default layout, whose aggregate initializer
fills the `hinge` field) and one drain of the default layout. -/
def fp0 : FloorPlan :=
  { showGrid := true, showLabels := true, showDoorSwings := true,
    showDimensions := true, showDrains := true, showScaleBar := true,
    scaleX := 1, scaleY := 1,
    showWindows := true, showDoors := true,
    showFrontElevation := false, showSideElevation := true,
    walls := [], kitchen := [], bar := [], windows := [], restrooms := [],
    fire := [], tablesRect := [], tablesCircle := [],
    doors := [⟨500, 50, 80, 10, "Main Entrance", "", 0⟩],
    floor := [],
    drains := [⟨150, 150, 6, ⟨0, 1 / 2, 1, 1⟩, "Drain 1", 0⟩],
    triBuf := DrawBuffer.init, lineBuf := DrawBuffer.init,
    proj := ortho 0 1200 800 0 (-1) 1,
    canvasW := 1200, canvasH := 800 }

/-- `fp0` with the scale-bar and drain toggles switched off. -/
def fp7 : FloorPlan := { fp0 with showScaleBar := false, showDrains := false }

/-- A concrete text measurer standing for `ImGui::CalcTextSize`. -/
def ts0 : String → Vec2 := fun _ => ⟨10, 10⟩

/-- A concrete vertex. -/
def v0 : Vertex := ⟨⟨0, 0⟩, ⟨0, 0, 0, 0⟩, ⟨0, 0⟩⟩

/-- A draw buffer holding one frame of 32769 vertices — one more than the
32768 that fit the fixed `1<<20`-byte GPU allocation. -/
def overBuf : DrawBuffer :=
  { data := List.replicate 32769 v0, vertexCount := 32769,
    capacity := 2 ^ 20, gpuData := [] }

/-- A concrete app state for the main-loop model. -/
def st0 : AppState := ⟨1280, 800, fp0⟩

/-- The clip-space point the overlay lambdas compute for a world anchor:
`proj * glm::vec4(wx * scaleX, wy * scaleY, 0, 1)`. -/
def clipOf (fp : FloorPlan) (wx wy : ℚ) : Vec4 :=
  mulVec4 fp.proj ⟨wx * fp.scaleX, wy * fp.scaleY, 0, 1⟩

/-- A constant function standing for `cosf` in concrete witnesses. -/
def cosOne : ℚ → ℚ := fun _ => 1

/-- A constant function standing for `sinf` in concrete witnesses. -/
def sinZero : ℚ → ℚ := fun _ => 0

/-- A concrete rect item with a non-empty label. -/
def r2 : RectItem := ⟨0, 0, 100, 100, ⟨1, 1, 1, 1⟩, "Kitchen", "A", 0⟩

/-- The "Main Entrance" door of the default layout (the C aggregate
initializer puts the fifth field into `hinge`). -/
def d8 : DoorItem := ⟨500, 50, 80, 10, "Main Entrance", "", 0⟩

/-! ### Helper lemmas -/

/-- A fold whose step appends three vertices grows the data list by three
per element. -/
theorem foldl_data_length_add (f : DrawBuffer → ℕ → DrawBuffer)
    (hf : ∀ b i, (f b i).data.length = b.data.length + 3)
    (l : List ℕ) (b : DrawBuffer) :
    (l.foldl f b).data.length = b.data.length + 3 * l.length := by
  induction l generalizing b with
  | nil => simp
  | cons a l ih =>
    rw [List.foldl_cons, ih (f b a), hf, List.length_cons]
    ring

/-- The C idiom `(a < b) ? a : b` is `min a b`. -/
theorem ite_lt_eq_min (a b : ℚ) : (if a < b then a else b) = min a b := by
  rw [min_def]
  split_ifs <;> linarith

/-- Characterization of the shared `worldToScreen` shape (stated for the
`drawLabels` instance): it returns `none` exactly when the homogeneous
divisor is zero or the normalized device coordinate leaves [-1,1] on
either axis, and an accepted point is mapped by the pixel formulas. -/
theorem wtsLabels_spec (fp : FloorPlan) (X Y : ℚ) :
    (wtsLabels fp X Y = none ↔
      (clipOf fp X Y).w = 0
      ∨ (clipOf fp X Y).x / (clipOf fp X Y).w < -1
      ∨ (clipOf fp X Y).x / (clipOf fp X Y).w > 1
      ∨ (clipOf fp X Y).y / (clipOf fp X Y).w < -1
      ∨ (clipOf fp X Y).y / (clipOf fp X Y).w > 1)
    ∧ (∀ p, wtsLabels fp X Y = some p →
        p = ⟨((clipOf fp X Y).x / (clipOf fp X Y).w * (1 / 2) + 1 / 2) * (fp.canvasW : ℚ),
             (1 - ((clipOf fp X Y).y / (clipOf fp X Y).w * (1 / 2) + 1 / 2))
               * (fp.canvasH : ℚ)⟩) := by
  have hunfold : wtsLabels fp X Y
      = if (clipOf fp X Y).w = 0 then none
        else if (clipOf fp X Y).x / (clipOf fp X Y).w < -1
              ∨ (clipOf fp X Y).x / (clipOf fp X Y).w > 1
              ∨ (clipOf fp X Y).y / (clipOf fp X Y).w < -1
              ∨ (clipOf fp X Y).y / (clipOf fp X Y).w > 1 then none
        else some ⟨((clipOf fp X Y).x / (clipOf fp X Y).w * (1 / 2) + 1 / 2)
                     * (fp.canvasW : ℚ),
                   (1 - ((clipOf fp X Y).y / (clipOf fp X Y).w * (1 / 2) + 1 / 2))
                     * (fp.canvasH : ℚ)⟩ := rfl
  constructor
  · rw [hunfold]
    split_ifs with h1 h2
    · simp [h1]
    · simp [h2]
    · simp [h1, h2]
  · intro p hp
    rw [hunfold] at hp
    split_ifs at hp with h1 h2
    injection hp with heq
    exact heq.symm

/-! ### Claims -/

/-- C3: `addRectTriangles` appends exactly 6 vertices, `addRectLines`
exactly 8, and for every segment count n ≥ 1 `addCircleTriangles` appends
exactly 3·n vertices (60 for n = 20); the six filled-rect vertices are the
two triangles covering [x,y]..[x+w,y+h] in the (already scaled) input
coordinates, each tagged with the shape's colour. -/
theorem C3_batch_vertex_counts (buf : DrawBuffer) (x y w h cx cy r : ℚ)
    (color : Color) (n : ℕ) (cosF sinF : ℚ → ℚ) (twoPi : ℚ) (hn : 1 ≤ n) :
    (addRectTriangles buf x y w h color).data.length = buf.data.length + 6
    ∧ (addRectLines buf x y w h color).data.length = buf.data.length + 8
    ∧ (addCircleTriangles cosF sinF twoPi buf cx cy r n color).data.length
        = buf.data.length + 3 * n
    ∧ (addRectTriangles buf x y w h color).data
        = buf.data ++
          [⟨⟨x, y⟩, color, ⟨0, 0⟩⟩, ⟨⟨x + w, y⟩, color, ⟨0, 0⟩⟩,
           ⟨⟨x + w, y + h⟩, color, ⟨0, 0⟩⟩, ⟨⟨x, y⟩, color, ⟨0, 0⟩⟩,
           ⟨⟨x + w, y + h⟩, color, ⟨0, 0⟩⟩, ⟨⟨x, y + h⟩, color, ⟨0, 0⟩⟩] := by
  refine ⟨?_, ?_, ?_, ?_⟩
  · simp [addRectTriangles, DrawBuffer.pushVertex]
  · simp [addRectLines, DrawBuffer.pushVertex]
  · rw [addCircleTriangles,
      foldl_data_length_add _ (fun b i => by simp [DrawBuffer.pushVertex]),
      List.length_range]
  · simp [addRectTriangles, DrawBuffer.pushVertex]

/-- Witness for C3 at segments = 20: the filled circle emits exactly 60
vertices. -/
theorem C3_batch_vertex_counts_witness :
    1 ≤ 20
    ∧ (addCircleTriangles (fun _ => 1) (fun _ => 0) (157 / 25)
        DrawBuffer.init 0 0 1 20 ⟨1, 1, 1, 1⟩).data.length
        = DrawBuffer.init.data.length + 3 * 20 :=
  ⟨by norm_num,
   (C3_batch_vertex_counts DrawBuffer.init 0 0 1 1 0 0 1 ⟨1, 1, 1, 1⟩ 20
      (fun _ => 1) (fun _ => 0) (157 / 25) (by norm_num)).2.2.1⟩

/-- C4 (code bug): a frame of 32769 vertices needs more bytes than the
fixed `1<<20` GPU allocation; `uploadAndDrawTriangles` neither grows the
allocation nor fails — the `glBufferSubData` overrun leaves the data store
unmodified and the subsequent `glDrawArrays` silently draws the stale
store content instead of the accumulated geometry. -/
theorem C4_upload_overflow_is_silent :
    overBuf.capacity < overBuf.data.length * bytesPerVertex
    ∧ (overBuf.uploadAndDrawTriangles glTriangles).1.capacity = overBuf.capacity
    ∧ (overBuf.uploadAndDrawTriangles glTriangles).2 = some (glTriangles, [])
    ∧ (overBuf.uploadAndDrawTriangles glTriangles).2
        ≠ some (glTriangles, overBuf.data) := by
  have hlen : overBuf.data.length = 32769 := by
    show (List.replicate 32769 v0).length = 32769
    rw [List.length_replicate]
  have hne : overBuf.data ≠ [] := by
    intro h
    rw [h] at hlen
    simp at hlen
  have hcap : ¬ overBuf.data.length * bytesPerVertex ≤ overBuf.capacity := by
    rw [hlen]
    norm_num [bytesPerVertex, overBuf]
  have hgpu : overBuf.gpuData = [] := rfl
  have hup : overBuf.uploadAndDrawTriangles glTriangles
      = ({ overBuf with gpuData := overBuf.gpuData },
         some (glTriangles, overBuf.gpuData.take overBuf.vertexCount)) := by
    rw [DrawBuffer.uploadAndDrawTriangles, if_neg hne]
    simp only [if_neg hcap]
  refine ⟨?_, ?_, ?_, ?_⟩
  · rw [hlen]
    norm_num [bytesPerVertex, overBuf]
  · rw [hup]
  · rw [hup, hgpu]
    simp
  · rw [hup, hgpu]
    simp only [List.take_nil, ne_eq, Option.some.injEq, Prod.mk.injEq]
    intro hcontra
    exact hne hcontra.2.symm

/-- C5: `updateProjection` is idempotent — every field it writes depends
only on (w, h), so a second call with the same size reproduces the state
(and the projection matrix) of the first exactly. -/
theorem C5_updateProjection_idempotent (w h : ℤ) (fp : FloorPlan) :
    updateProjection w h (updateProjection w h fp) = updateProjection w h fp :=
  rfl

/-- C6 (counterexample): the texture coordinates emitted by
`addRectTextured`, in emission order, are NOT
(0,0),(1,0),(1,1),(1,1),(0,1),(0,0) as the claim states — the second
triangle starts over at (0,0). -/
theorem C6_uv_order_counterexample :
    ((addRectTextured DrawBuffer.init 0 0 1 1 ⟨1, 1, 1, 1⟩).data.map
        fun v => v.uv)
      ≠ [⟨0, 0⟩, ⟨1, 0⟩, ⟨1, 1⟩, ⟨1, 1⟩, ⟨0, 1⟩, ⟨0, 0⟩] := by
  decide

/-- C6 (amended): `addRectTextured` emits 6 vertices whose texture
coordinates are, in emission order, (0,0),(1,0),(1,1),(0,0),(1,1),(0,1) —
the corners (0,0),(1,0),(1,1),(0,1) of the unit square mapped to the
corners (x,y),(x+w,y),(x+w,y+h),(x,y+h) of the bounding rectangle, so the
quad is textured in full — with the colour channel present on every
vertex (the multiplicative tint). -/
theorem C6_textured_quad (buf : DrawBuffer) (x y w h : ℚ) (color : Color) :
    (addRectTextured buf x y w h color).data
      = buf.data ++
        [⟨⟨x, y⟩, color, ⟨0, 0⟩⟩, ⟨⟨x + w, y⟩, color, ⟨1, 0⟩⟩,
         ⟨⟨x + w, y + h⟩, color, ⟨1, 1⟩⟩, ⟨⟨x, y⟩, color, ⟨0, 0⟩⟩,
         ⟨⟨x + w, y + h⟩, color, ⟨1, 1⟩⟩, ⟨⟨x, y + h⟩, color, ⟨0, 1⟩⟩] := by
  simp [addRectTextured, DrawBuffer.pushVertex]

/-- C1: for a strictly positive viewport, `updateProjection` sets both
scale factors to s = min(w/1200, h/800), and the resulting orthographic
matrix sends (X, Y, 0, 1) to clip coordinates (2X/(1200 s) − 1,
1 − 2Y/(800 s), ·, 1): world x = 0 maps to NDC −1 and x = 1200·s to +1,
while world y = 0 maps to NDC +1 (screen top) and y = 800·s to −1 — the
orthographic map of [0, 1200 s] × [0, 800 s] with the Y axis flipped. -/
theorem C1_uniform_projection (w h : ℤ) (fp : FloorPlan) (X Y : ℚ)
    (hw : 0 < w) (hh : 0 < h) :
    (updateProjection w h fp).scaleX = min ((w : ℚ) / 1200) ((h : ℚ) / 800)
    ∧ (updateProjection w h fp).scaleY = (updateProjection w h fp).scaleX
    ∧ (mulVec4 (updateProjection w h fp).proj ⟨X, Y, 0, 1⟩).w = 1
    ∧ (mulVec4 (updateProjection w h fp).proj ⟨X, Y, 0, 1⟩).x
        = 2 * X / (1200 * min ((w : ℚ) / 1200) ((h : ℚ) / 800)) - 1
    ∧ (mulVec4 (updateProjection w h fp).proj ⟨X, Y, 0, 1⟩).y
        = 1 - 2 * Y / (800 * min ((w : ℚ) / 1200) ((h : ℚ) / 800)) := by
  have hwq : (0 : ℚ) < (w : ℚ) := by exact_mod_cast hw
  have hhq : (0 : ℚ) < (h : ℚ) := by exact_mod_cast hh
  have hs : 0 < min ((w : ℚ) / 1200) ((h : ℚ) / 800) :=
    lt_min (by positivity) (by positivity)
  have e : updateProjection w h fp
      = { fp with canvasW := w, canvasH := h,
                  scaleX := min ((w : ℚ) / 1200) ((h : ℚ) / 800),
                  scaleY := min ((w : ℚ) / 1200) ((h : ℚ) / 800),
                  proj := ortho 0 (1200 * min ((w : ℚ) / 1200) ((h : ℚ) / 800))
                            (800 * min ((w : ℚ) / 1200) ((h : ℚ) / 800)) 0 (-1) 1 } := by
    simp only [updateProjection, ite_lt_eq_min]
  have h1200 : (1200 : ℚ) * min ((w : ℚ) / 1200) ((h : ℚ) / 800) ≠ 0 := by positivity
  have h800 : (800 : ℚ) * min ((w : ℚ) / 1200) ((h : ℚ) / 800) ≠ 0 := by positivity
  rw [e]
  refine ⟨rfl, rfl, ?_, ?_, ?_⟩
  · simp [mulVec4, ortho]
  · simp only [mulVec4, ortho]
    field_simp
    ring
  · simp only [mulVec4, ortho]
    field_simp
    ring

/-- Witness for C1 at the 2400×800 viewport of the spec's first
end-to-end scenario: s = min(2, 1) = 1. -/
theorem C1_uniform_projection_witness :
    ((0 : ℤ) < 2400 ∧ (0 : ℤ) < 800)
    ∧ ((updateProjection 2400 800 fp0).scaleX
         = min (((2400 : ℤ) : ℚ) / 1200) (((800 : ℤ) : ℚ) / 800)
       ∧ (updateProjection 2400 800 fp0).scaleY = (updateProjection 2400 800 fp0).scaleX
       ∧ (mulVec4 (updateProjection 2400 800 fp0).proj ⟨600, 400, 0, 1⟩).w = 1
       ∧ (mulVec4 (updateProjection 2400 800 fp0).proj ⟨600, 400, 0, 1⟩).x
           = 2 * 600 / (1200 * min (((2400 : ℤ) : ℚ) / 1200) (((800 : ℤ) : ℚ) / 800)) - 1
       ∧ (mulVec4 (updateProjection 2400 800 fp0).proj ⟨600, 400, 0, 1⟩).y
           = 1 - 2 * 400 / (800 * min (((2400 : ℤ) : ℚ) / 1200) (((800 : ℤ) : ℚ) / 800))) :=
  ⟨⟨by norm_num, by norm_num⟩,
   C1_uniform_projection 2400 800 fp0 600 400 (by norm_num) (by norm_num)⟩

/-- C2: the overlay world-to-screen mapping (stated on the `drawLabels`
lambda, which coincides definitionally with the `drawDoorSwings` one)
returns `none` iff clip.w = 0 or the NDC point leaves [-1,1] on either
axis; an accepted anchor gets pixelX = (ndc.x·0.5+0.5)·canvasW, pixelY =
(1−(ndc.y·0.5+0.5))·canvasH; and a rejected anchor at a rect item's
center yields no overlay draw call for that item. -/
theorem C2_overlay_rejection (fp : FloorPlan) (r : RectItem) (ts : String → Vec2)
    (wx wy : ℚ) (hax : wx = r.x + r.w * (1 / 2)) (hay : wy = r.y + r.h * (1 / 2)) :
    (wtsLabels fp wx wy = none ↔
      (clipOf fp wx wy).w = 0
      ∨ (clipOf fp wx wy).x / (clipOf fp wx wy).w < -1
      ∨ (clipOf fp wx wy).x / (clipOf fp wx wy).w > 1
      ∨ (clipOf fp wx wy).y / (clipOf fp wx wy).w < -1
      ∨ (clipOf fp wx wy).y / (clipOf fp wx wy).w > 1)
    ∧ (∀ p, wtsLabels fp wx wy = some p →
        p = ⟨((clipOf fp wx wy).x / (clipOf fp wx wy).w * (1 / 2) + 1 / 2)
               * (fp.canvasW : ℚ),
             (1 - ((clipOf fp wx wy).y / (clipOf fp wx wy).w * (1 / 2) + 1 / 2))
               * (fp.canvasH : ℚ)⟩)
    ∧ (wtsLabels fp wx wy = none → rectLabelCmds ts fp r = [])
    ∧ wtsDoorSwings fp wx wy = wtsLabels fp wx wy := by
  subst hax
  subst hay
  refine ⟨(wtsLabels_spec fp _ _).1, (wtsLabels_spec fp _ _).2, ?_, rfl⟩
  intro hnone
  simp only [rectLabelCmds, hnone]
  split_ifs <;> rfl

/-- Witness for C2 at a concrete item whose center (50, 50) is on
screen. -/
theorem C2_overlay_rejection_witness :
    ((50 : ℚ) = r2.x + r2.w * (1 / 2) ∧ (50 : ℚ) = r2.y + r2.h * (1 / 2))
    ∧ ((wtsLabels fp0 50 50 = none ↔
         (clipOf fp0 50 50).w = 0
         ∨ (clipOf fp0 50 50).x / (clipOf fp0 50 50).w < -1
         ∨ (clipOf fp0 50 50).x / (clipOf fp0 50 50).w > 1
         ∨ (clipOf fp0 50 50).y / (clipOf fp0 50 50).w < -1
         ∨ (clipOf fp0 50 50).y / (clipOf fp0 50 50).w > 1)
       ∧ (∀ p, wtsLabels fp0 50 50 = some p →
           p = ⟨((clipOf fp0 50 50).x / (clipOf fp0 50 50).w * (1 / 2) + 1 / 2)
                  * (fp0.canvasW : ℚ),
                (1 - ((clipOf fp0 50 50).y / (clipOf fp0 50 50).w * (1 / 2) + 1 / 2))
                  * (fp0.canvasH : ℚ)⟩)
       ∧ (wtsLabels fp0 50 50 = none → rectLabelCmds ts0 fp0 r2 = [])
       ∧ wtsDoorSwings fp0 50 50 = wtsLabels fp0 50 50) :=
  ⟨⟨by norm_num [r2], by norm_num [r2]⟩,
   C2_overlay_rejection fp0 r2 ts0 50 50 (by norm_num [r2]) (by norm_num [r2])⟩

/-- C7 (code bug): `drawScaleBar` never reads `showScaleBar` — with the
flag off it still emits the scale-bar line and text — whereas the sibling
overlays really are gated: `drawFloorDrains` with `showDrains = false`
emits nothing (and does draw once the flag is on), and likewise
`drawLabels` and `drawDoorSwings` obey their flags. -/
theorem C7_scaleBar_ignores_flag :
    fp7.showScaleBar = false
    ∧ drawScaleBar fp7 ≠ []
    ∧ fp7.showDrains = false
    ∧ drawFloorDrains ts0 fp7 = []
    ∧ drawFloorDrains ts0 fp0 ≠ []
    ∧ drawLabels ts0 { fp0 with showLabels := false } = []
    ∧ drawDoorSwings cosOne sinZero (157 / 100) { fp0 with showDoorSwings := false }
        = [] := by
  refine ⟨rfl, ?_, rfl, rfl, ?_, rfl, rfl⟩
  · norm_num [drawScaleBar, wtsScaleBar, fp7, fp0, ortho, mulVec4]
    exact List.cons_ne_nil _ _
  · norm_num [drawFloorDrains, wtsFloorDrains, fp0, ts0, ortho, mulVec4]
    exact List.cons_ne_nil _ _

/-- C8: for a door accepted at projected center c, the door-swing overlay
contains, for every i < 20, the straight segment joining the arc points
at parameter angles halfPi·i/20 and halfPi·(i+1)/20 (halfPi models the
constant `M_PI_2`, so the 20 chords approximate the quarter turn from
angle 0 to π/2), on the circle of radius (w+h)/2 · scaleX around c. -/
theorem C8_door_swing_arc (fp : FloorPlan) (cosF sinF : ℚ → ℚ) (halfPi : ℚ)
    (d : DoorItem) (c : Vec2) (i : ℕ)
    (hc : wtsDoorSwings fp d.x d.y = some c) (hi : i < 20) :
    DrawCmd.addLine
        ⟨c.x + cosF (halfPi * (i : ℚ) / 20) * ((d.w + d.h) * (1 / 2) * fp.scaleX),
         c.y + sinF (halfPi * (i : ℚ) / 20) * ((d.w + d.h) * (1 / 2) * fp.scaleX)⟩
        ⟨c.x + cosF (halfPi * ((i : ℚ) + 1) / 20) * ((d.w + d.h) * (1 / 2) * fp.scaleX),
         c.y + sinF (halfPi * ((i : ℚ) + 1) / 20) * ((d.w + d.h) * (1 / 2) * fp.scaleX)⟩
      ∈ doorSwingCmds cosF sinF halfPi fp d
    ∧ halfPi * ((0 : ℕ) : ℚ) / 20 = 0 ∧ halfPi * ((20 : ℕ) : ℚ) / 20 = halfPi := by
  refine ⟨?_, by push_cast; ring, by push_cast; field_simp⟩
  simp only [doorSwingCmds, hc, zero_add, sub_zero]
  refine List.mem_flatMap.mpr ⟨i, List.mem_range.mpr hi, ?_⟩
  simp

/-- Witness for C8: the default layout's main-entrance door at world
(500, 50), extent (80, 10), accepted at pixel center (500, 50) under the
1200×800 projection; chord i = 0. -/
theorem C8_door_swing_arc_witness :
    wtsDoorSwings fp0 d8.x d8.y = some ⟨500, 50⟩
    ∧ (0 : ℕ) < 20
    ∧ DrawCmd.addLine
        ⟨(500 : ℚ) + cosOne (157 / 100 * ((0 : ℕ) : ℚ) / 20)
           * ((d8.w + d8.h) * (1 / 2) * fp0.scaleX),
         (50 : ℚ) + sinZero (157 / 100 * ((0 : ℕ) : ℚ) / 20)
           * ((d8.w + d8.h) * (1 / 2) * fp0.scaleX)⟩
        ⟨(500 : ℚ) + cosOne (157 / 100 * (((0 : ℕ) : ℚ) + 1) / 20)
           * ((d8.w + d8.h) * (1 / 2) * fp0.scaleX),
         (50 : ℚ) + sinZero (157 / 100 * (((0 : ℕ) : ℚ) + 1) / 20)
           * ((d8.w + d8.h) * (1 / 2) * fp0.scaleX)⟩
      ∈ doorSwingCmds cosOne sinZero (157 / 100) fp0 d8 :=
  ⟨by norm_num [wtsDoorSwings, fp0, d8, ortho, mulVec4], by norm_num,
   (C8_door_swing_arc fp0 cosOne sinZero (157 / 100) d8 ⟨500, 50⟩ 0
      (by norm_num [wtsDoorSwings, fp0, d8, ortho, mulVec4]) (by norm_num)).1⟩

/-- C9 (counterexample): on a zero-width resize event the callback indeed
leaves the whole state unchanged (the projection recompute is skipped),
but the next main-loop iteration still renders the scene — `renderScene`
is in the iteration's pass list — so rendering of that frame is NOT
skipped as the claim states. -/
theorem C9_zero_size_counterexample :
    framebuffer_size_cb 0 600 st0 = st0
    ∧ FrameAction.renderScene ∈ loopIteration (framebuffer_size_cb 0 600 st0) := by
  have h1 : framebuffer_size_cb 0 600 st0 = st0 := by
    rw [framebuffer_size_cb, if_neg]
    rintro ⟨hw, _⟩
    exact lt_irrefl 0 hw
  refine ⟨h1, ?_⟩
  rw [h1, loopIteration]
  simp

/-- C9 (amended): when the viewport size becomes zero on either axis, the
resize callback skips the projection recompute — gWinW, gWinH and the
whole floor plan (scale factors and projection matrix included) stay
unchanged, so no singular matrix is produced — but rendering is not
skipped: every main-loop iteration, whatever the state, executes the
scene render pass with the previous projection. -/
theorem C9_zero_size_guard (w h : ℤ) (st : AppState) (hz : w = 0 ∨ h = 0) :
    framebuffer_size_cb w h st = st
    ∧ FrameAction.renderScene ∈ loopIteration st := by
  constructor
  · rw [framebuffer_size_cb, if_neg]
    rintro ⟨hw, hh⟩
    rcases hz with rfl | rfl
    · exact lt_irrefl 0 hw
    · exact lt_irrefl 0 hh
  · rw [loopIteration]
    simp

/-- Witness for C9 (amended) at the event (0, 600). -/
theorem C9_zero_size_guard_witness :
    ((0 : ℤ) = 0 ∨ (600 : ℤ) = 0)
    ∧ (framebuffer_size_cb 0 600 st0 = st0
       ∧ FrameAction.renderScene ∈ loopIteration st0) :=
  ⟨Or.inl rfl, C9_zero_size_guard 0 600 st0 (Or.inl rfl)⟩

/-- C10: when scaleX = scaleY the five per-overlay worldToScreen lambdas
compute the same mapping — in particular the `drawFloorDrains` one, which
multiplies the world y by scaleX instead of scaleY — and `updateProjection`
always leaves scaleX = scaleY, so the coincidence holds after every
projection update. -/
theorem C10_worldToScreen_agreement (fp fq : FloorPlan) (w h : ℤ) (wx wy : ℚ)
    (hs : fp.scaleX = fp.scaleY) :
    (wtsFloorDrains fp wx wy = wtsLabels fp wx wy
     ∧ wtsDoorSwings fp wx wy = wtsLabels fp wx wy
     ∧ wtsDimensions fp wx wy = wtsLabels fp wx wy
     ∧ wtsScaleBar fp wx wy = wtsLabels fp wx wy)
    ∧ (updateProjection w h fq).scaleX = (updateProjection w h fq).scaleY := by
  refine ⟨⟨?_, rfl, rfl, rfl⟩, rfl⟩
  simp only [wtsFloorDrains, wtsLabels, hs]

/-- Witness for C10 at `fp0` (whose scale factors are both 1). -/
theorem C10_worldToScreen_agreement_witness :
    fp0.scaleX = fp0.scaleY
    ∧ ((wtsFloorDrains fp0 150 150 = wtsLabels fp0 150 150
        ∧ wtsDoorSwings fp0 150 150 = wtsLabels fp0 150 150
        ∧ wtsDimensions fp0 150 150 = wtsLabels fp0 150 150
        ∧ wtsScaleBar fp0 150 150 = wtsLabels fp0 150 150)
       ∧ (updateProjection 2400 800 fp0).scaleX = (updateProjection 2400 800 fp0).scaleY) :=
  ⟨rfl, C10_worldToScreen_agreement fp0 fp0 2400 800 150 150 rfl⟩

end FloorPlanModel
